import Mathlib

/-!
# Verification of the rspress build/runtime core (`packages/runtime/src/Content.tsx`)

This file gives a shallow embedding of the two modules excerpted in the
repository — the client-side `Content`/`TransitionContent` components and the
node-side `bundle`/`renderPages`/`build` pipeline — and proves the frozen
claims about them.

Strings are modelled as `List Char` so that every operation is executable and
decidable.  JavaScript's `String.prototype.replace` is embedded twice,
mirroring its two overloads: `replaceF` (function replacement: the returned
text is inserted verbatim) and `replaceStr` (string replacement: the
replacement string undergoes `$`-pattern expansion per `GetSubstitution`,
with no capture groups since the search pattern is a plain string).
-/

set_option autoImplicit false
set_option maxRecDepth 100000

namespace Rspress

/-- JavaScript strings are modelled as lists of characters. -/
abbrev Str := List Char

/-- Coerce a Lean string literal into the model. -/
def str (s : String) : Str := s.data

/-- The dollar character starting a `$`-pattern in a string replacement. -/
def dollarChar : Char := Char.ofNat 36

/-- The ampersand, as in the `$&` replacement pattern. -/
def ampChar : Char := Char.ofNat 38

/-- The backquote, as in the replacement pattern inserting the prefix. -/
def backquoteChar : Char := Char.ofNat 96

/-- The single quote, as in the replacement pattern inserting the suffix. -/
def quoteChar : Char := Char.ofNat 39

/-- Predicate `startsWith p s` holds when `p` is a leading segment of `s`
(JS `String.prototype.startsWith`). -/
def startsWith : Str → Str → Bool
  | [], _ => true
  | _ :: _, [] => false
  | p :: ps, c :: cs => p == c && startsWith ps cs

/-- Predicate `endsWith p s` holds when `p` is a trailing segment of `s`
(JS `String.prototype.endsWith`). -/
def endsWith (p s : Str) : Bool := startsWith p.reverse s.reverse

/-- Leftmost-occurrence search: `splitFirst pat s = some (b, a)` splits `s` as
`b ++ pat ++ a` around the first occurrence of `pat`, and is `none` when `pat`
does not occur.  This is the search step shared by both overloads of JS
`String.prototype.replace` with a string search pattern. -/
def splitFirst (pat : Str) : Str → Option (Str × Str)
  | [] => if startsWith pat [] then some ([], []) else none
  | c :: rest =>
    if startsWith pat (c :: rest) then some ([], (c :: rest).drop pat.length)
    else
      match splitFirst pat rest with
      | some (b, a) => some (c :: b, a)
      | none => none

/-- JS `String.prototype.includes`: substring occurrence test. -/
def containsSub (pat s : Str) : Bool := (splitFirst pat s).isSome

/-- Whether a string contains the dollar character — the strings free of it
are exactly those a string-form `replace` inserts verbatim. -/
def hasDollar : Str → Bool
  | [] => false
  | c :: rest => c == dollarChar || hasDollar rest

/-- The `GetSubstitution` operation from the ECMAScript spec, specialised to a string search
pattern (hence no capture groups): expands `$$`, `$&`, the backquote pattern
(text before the match) and the quote pattern (text after the match); any
other `$`-sequence, including `$n` with no captures, is kept literally. -/
def getSubstitution (matched before after : Str) : Str → Str
  | [] => []
  | c :: rest =>
    if c == dollarChar then
      match rest with
      | [] => [c]
      | d :: rest2 =>
        if d == dollarChar then dollarChar :: getSubstitution matched before after rest2
        else if d == ampChar then matched ++ getSubstitution matched before after rest2
        else if d == backquoteChar then before ++ getSubstitution matched before after rest2
        else if d == quoteChar then after ++ getSubstitution matched before after rest2
        else c :: getSubstitution matched before after (d :: rest2)
    else c :: getSubstitution matched before after rest

/-- JS `s.replace(pat, f)` with a **function** replacement: the first
occurrence of `pat` is replaced by `f(match)`, inserted verbatim. -/
def replaceF (s pat : Str) (f : Str → Str) : Str :=
  match splitFirst pat s with
  | none => s
  | some (b, a) => b ++ f pat ++ a

/-- JS `s.replace(pat, repl)` with a **string** replacement: the first
occurrence of `pat` is replaced by `repl` after `$`-pattern expansion. -/
def replaceStr (s pat repl : Str) : Str :=
  match splitFirst pat s with
  | none => s
  | some (b, a) => b ++ getSubstitution pat b a repl ++ a

/-- JS `Array.prototype.join('')` over an array whose elements may be
`undefined`: `undefined` (and `null`) elements contribute the empty string. -/
def joinOpt : List (Option Str) → Str
  | [] => []
  | some s :: t => s ++ joinOpt t
  | none :: t => joinOpt t

/-- An `undefined`-or-string value read back as the text it contributes. -/
def optStr : Option Str → Str
  | none => []
  | some s => s

/-- Modelled from the spec: `addLeadingSlash` from `@rspress/shared` (the
package is part of this repository but not under `src/`) — a URL not starting
with `/` gets one prepended. -/
def addLeadingSlash (u : Str) : Str :=
  if startsWith (str "/") u then u else Char.ofNat 47 :: u

/-- Modelled from the spec: `removeTrailingSlash` from `@rspress/shared` — a
URL ending in `/` loses its final character. -/
def removeTrailingSlash (u : Str) : Str :=
  if endsWith (str "/") u then u.dropLast else u

/-- Modelled from the spec: `normalizeSlash` from `@rspress/shared` — ensure a
leading slash, drop a trailing one.  In particular `normalizeSlash "/" = ""`. -/
def normalizeSlash (u : Str) : Str := removeTrailingSlash (addLeadingSlash u)

/-- Evaluates `config?.base || "/"`: an absent or empty base falls back to the root. -/
def baseOrSlash : Option Str → Str
  | none => str "/"
  | some b => if b.isEmpty then str "/" else b

/-- Function `normalizeHtmlFilePath` from `renderPages` (`Content.tsx`): a route path
ending in `/` maps to `path ++ "index.html"`, otherwise to `path ++ ".html"`,
and then `.replace(normalizedBase, '')` removes the **first occurrence** of
the normalized base from the resulting file path. -/
def normalizeHtmlFilePath (base : Option Str) (path : Str) : Str :=
  let normalizedBase := normalizeSlash (baseOrSlash base)
  if endsWith (str "/") path then
    replaceStr (path ++ str "index.html") normalizedBase []
  else
    replaceStr (path ++ str ".html") normalizedBase []

/-- Modelled from the spec: `APPEARANCE_KEY` from `@rspress/shared` (part of
this repository, not under `src/`) — the theme appearance persistence key
interpolated into the theme-detection bootstrap script. -/
def APPEARANCE_KEY : Str := str "rspress-theme-appearance"

/-- Constant `CHECK_DARK_LIGHT_SCRIPT` from `Content.tsx`: the theme-detection
bootstrap script appended last to the head substitution, with
`APPEARANCE_KEY` already interpolated. -/
def CHECK_DARK_LIGHT_SCRIPT : Str :=
  str "\n<script id=\"check-dark-light\">\n;(() => \x7b\n  const saved = localStorage.getItem(\x27" ++
  APPEARANCE_KEY ++
  str "\x27)\n  const prefereDark = window.matchMedia(\x27(prefers-color-scheme: dark)\x27).matches\n  if (!saved || saved === \x27auto\x27 ? prefereDark : saved === \x27dark\x27) \x7b\n    document.documentElement.classList.add(\x27dark\x27)\n  \x7d\n\x7d)()\n</script>\n"

/-- Modelled from the spec: the app-root marker constant (`./constants`, not
under `src/`) — the textual marker in the HTML template replaced by the
rendered app fragment.  Its exact text is immaterial to the claims. -/
def APP_HTML_MARKER : Str := str "<!--app-html-->"

/-- Modelled from the spec: the head marker constant (`./constants`, not
under `src/`) — the textual marker in the HTML template replaced by the
concatenated head tags.  Its exact text is immaterial to the claims. -/
def HEAD_MARKER : Str := str "<!--head-->"

/-- Modelled from the spec: the opening `<html` tag text (`./constants`, not
under `src/`), target of the html-attributes injection. -/
def HTML_START_TAG : Str := str "<html"

/-- Modelled from the spec: the opening `<body` tag text (`./constants`, not
under `src/`), target of the body-attributes injection. -/
def BODY_START_TAG : Str := str "<body"

/-- The helmet server state collected for one route
(`helmetContext.context.helmet`): each field is the `toString` of the
corresponding tag group, or `none` when the group is `undefined`.  The
attribute fields are `none` exactly when the corresponding
`helmet?.htmlAttributes` / `helmet?.bodyAttributes` test is falsy. -/
structure HelmetState where
  title : Option Str := none
  meta : Option Str := none
  link : Option Str := none
  style : Option Str := none
  script : Option Str := none
  htmlAttributes : Option Str := none
  bodyAttributes : Option Str := none
  deriving DecidableEq

/-- The slice of `UserConfig` that `bundle`/`renderPages` read: `head` models
`config?.head || []`, `base` models `config?.base` (`none` = `undefined`). -/
structure Config where
  base : Option Str := none
  head : List Str := []
  deriving DecidableEq

/-- The marker-substitution pipeline applied to the HTML template for one
route (the body of `renderPages`'s per-route callback after rendering):
the app-root marker is replaced via a **callback** (verbatim insertion); the
head marker and the conditional html/body attribute injections are replaced
with **plain strings** (subject to `$`-pattern expansion); the head
replacement is `(config?.head || []).concat([...tag groups...,
CHECK_DARK_LIGHT_SCRIPT]).join('')`. -/
def pageHtml (cfg : Config) (template : Str) (appHtml : Str)
    (helmet : Option HelmetState) : Str :=
  let html1 := replaceF template APP_HTML_MARKER (fun _ => appHtml)
  let headRepl := joinOpt ((cfg.head.map some) ++
    [helmet.bind (fun h => h.title),
     helmet.bind (fun h => h.meta),
     helmet.bind (fun h => h.link),
     helmet.bind (fun h => h.style),
     helmet.bind (fun h => h.script),
     some CHECK_DARK_LIGHT_SCRIPT])
  let html2 := replaceStr html1 HEAD_MARKER headRepl
  let html3 :=
    match helmet.bind (fun h => h.htmlAttributes) with
    | some attrs => replaceStr html2 HTML_START_TAG (HTML_START_TAG ++ Char.ofNat 32 :: attrs)
    | none => html2
  match helmet.bind (fun h => h.bodyAttributes) with
  | some attrs => replaceStr html3 BODY_START_TAG (BODY_START_TAG ++ Char.ofNat 32 :: attrs)
  | none => html3

/-- The logger calls observable during `renderPages`. -/
inductive LogEvent where
  /-- The `logger.info` banner at the start of the render pass. -/
  | info : LogEvent
  /-- The `logger.error(e)` call for the SSR-bundle load exception. -/
  | errorLog : Str → LogEvent
  /-- The warning that the SSR bundle failed to load, falling back to CSR. -/
  | warnLoadFail : LogEvent
  /-- The per-route warning that rendering threw, falling back to CSR. -/
  | warnRouteFail : Str → Str → LogEvent
  /-- The `logger.success` summary at the end of the render pass. -/
  | success : LogEvent
  deriving DecidableEq

/-- Recognizes the SSR-bundle load-failure warning among the log events. -/
def isWarnLoadFail : LogEvent → Bool
  | LogEvent.warnLoadFail => true
  | _ => false

/-- The SSR bundle's `render` entry: on success it yields the app HTML and the
helmet state it deposited in the passed context (`none` when it set no helmet
data); a thrown exception is an `Except.error` carrying the message. -/
abbrev RenderFn := Str → Except Str (Str × Option HelmetState)

/-- One iteration of `renderPages`'s per-route callback: invoke `render` when
present (falling back to an empty fragment and a per-route warning on a
thrown exception; with no render function the fragment is empty and the
helmet context stays empty), then build the page HTML and emit the write at
the normalized file path. -/
def renderRoute (cfg : Config) (template : Str) (render : Option RenderFn)
    (routePath : Str) : List LogEvent × (Str × Str) :=
  let step : Str × Option HelmetState × List LogEvent :=
    match render with
    | none => ([], none, [])
    | some r =>
      match r routePath with
      | Except.ok (appHtml, helmet) => (appHtml, helmet, [])
      | Except.error m => ([], none, [LogEvent.warnRouteFail routePath m])
  (step.2.2,
   (normalizeHtmlFilePath cfg.base routePath,
    pageHtml cfg template step.1 step.2.1))

/-- The environment `renderPages` runs in: whether SSG is enabled, the
outcome of dynamically importing the SSR bundle, the routes from the route
service, the plugin-supplied additional SSG routes (already carrying the
base, as `withBase` is applied before the render loop), the HTML template
read from disk, and the user config. -/
structure RenderEnv where
  enableSSG : Bool
  ssrLoad : Except Str RenderFn
  routes : List Str
  additionalRoutes : List Str
  htmlTemplate : Str
  config : Config

/-- The routes `renderPages` actually renders: the route-service routes
followed by the plugin SSG routes, minus every route whose path contains a
dynamic parameter (`route.routePath.includes(':')`). -/
def staticRoutes (env : RenderEnv) : List Str :=
  (env.routes ++ env.additionalRoutes).filter
    (fun p => !(containsSub (str ":") p))

/-- Function `renderPages` from `Content.tsx`, observed through its logger calls and
file writes (each write is `(fileName, html)`; the code joins `fileName`
under the output path).  When SSG is enabled the SSR bundle is imported: a
load failure logs the error plus one warning and leaves the render function
absent; with SSG disabled no import is attempted.  Every static route is then
rendered and written.  Per-route logs are listed in route order (the code
launches the routes concurrently and awaits them all). -/
def renderPages (env : RenderEnv) : List LogEvent × List (Str × Str) :=
  let load : Option RenderFn × List LogEvent :=
    if env.enableSSG then
      match env.ssrLoad with
      | Except.ok r => (some r, [])
      | Except.error e => (none, [LogEvent.errorLog e, LogEvent.warnLoadFail])
    else (none, [])
  let results := (staticRoutes env).map (renderRoute env.config env.htmlTemplate load.1)
  (LogEvent.info :: load.2 ++ (results.map Prod.fst).flatten ++ [LogEvent.success],
   results.map Prod.snd)

/-- The observable steps of the `bundle` function. -/
inductive BuildStep where
  /-- A completed `builder.build()` of the client bundle. -/
  | buildClient : BuildStep
  /-- A completed `builder.build()` of the SSR bundle. -/
  | buildSSR : BuildStep
  /-- The `fs.copy(publicDir, outputDir)` of the public directory. -/
  | copyPublic : BuildStep
  /-- The `writeSearchIndex(config)` call in the `finally` block. -/
  | writeSearchIndexStep : BuildStep
  deriving DecidableEq

/-- The environment `bundle` runs in: whether SSG is enabled, the outcomes of
the client and SSR builds (`initRsbuild` + `build`, an `error` being a
rejection), whether the public dir exists, and the outcome of copying it. -/
structure BundleEnv where
  enableSSG : Bool
  clientBuild : Except Str Unit
  ssrBuild : Except Str Unit
  publicDirExists : Bool
  copyPublic : Except Str Unit

/-- Function `bundle` from `Content.tsx`, observed through its steps: the `try` block
builds the client bundle (and, when SSG is enabled, the SSR bundle — a
rejection of either fails the `Promise.all`) and then copies the public
directory when present; the `finally` block runs `writeSearchIndex` on every
exit path, after which the body's outcome (success or the thrown error) is
returned or re-propagated. -/
def bundle (env : BundleEnv) : List BuildStep × Except Str Unit :=
  let body : List BuildStep × Except Str Unit :=
    let built : List BuildStep × Except Str Unit :=
      if env.enableSSG then
        match env.clientBuild, env.ssrBuild with
        | Except.ok _, Except.ok _ =>
          ([BuildStep.buildClient, BuildStep.buildSSR], Except.ok ())
        | Except.error e, _ => ([], Except.error e)
        | _, Except.error e => ([BuildStep.buildClient], Except.error e)
      else
        match env.clientBuild with
        | Except.ok _ => ([BuildStep.buildClient], Except.ok ())
        | Except.error e => ([], Except.error e)
    match built.2 with
    | Except.error e => (built.1, Except.error e)
    | Except.ok _ =>
      if env.publicDirExists then
        match env.copyPublic with
        | Except.ok _ => (built.1 ++ [BuildStep.copyPublic], Except.ok ())
        | Except.error e => (built.1 ++ [BuildStep.copyPublic], Except.error e)
      else (built.1, Except.ok ())
  (body.1 ++ [BuildStep.writeSearchIndexStep], body.2)

/-- One entry of the build-time-generated route table consumed by `Content`:
a path pattern plus its renderable element. -/
structure RouteEntry (α : Type) where
  routePath : Str
  element : α
  deriving DecidableEq

/-- Modelled from the spec: `matchRoutes` from `react-router-dom` (a
third-party dependency, not in this repository) — the route table is scanned
in table order against the (already normalized) pathname, the first matching
entry forms the matched branch, and `none` is returned when nothing matches.
The per-entry match test is abstracted as `pathMatches pattern path`. -/
def matchRoutes {α : Type} (pathMatches : Str → Str → Bool)
    (routes : List (RouteEntry α)) (pathname : Str) : Option (RouteEntry α) :=
  routes.find? (fun r => pathMatches r.routePath pathname)

/-- What `Content` returns: the empty placeholder `<div></div>` on no match,
or the first matched route's element, either bare (React 17 + SSR) or inside
the `Suspense`/`TransitionContent` wrapper. -/
inductive ContentResult (α : Type) where
  /-- The `<div></div>` rendered when `matchRoutes` returns null. -/
  | placeholder : ContentResult α
  /-- The `routesElement` returned directly (React below 18 under SSR). -/
  | bare : α → ContentResult α
  /-- The `routesElement` wrapped in `Suspense` + `TransitionContent`. -/
  | suspended : α → ContentResult α
  deriving DecidableEq

/-- The route element a `ContentResult` renders, if any. -/
def renderedElement {α : Type} : ContentResult α → Option α
  | ContentResult.placeholder => none
  | ContentResult.bare el => some el
  | ContentResult.suspended el => some el

/-- The `Content` component from `Content.tsx`: normalize the current
pathname (`normalizeRoutePath`, modelled abstractly as `normalize`), match it
against the route table, return an empty placeholder when nothing matches,
and otherwise render the first matched route's element — bare when React is
below 18 and SSR is on, else wrapped in the suspense/transition boundary. -/
def Content {α : Type} (pathMatches : Str → Str → Bool) (normalize : Str → Str)
    (routes : List (RouteEntry α)) (reactGte18 ssrFlag : Bool)
    (pathname : Str) : ContentResult α :=
  match matchRoutes pathMatches routes (normalize pathname) with
  | none => ContentResult.placeholder
  | some m =>
    if !reactGte18 && ssrFlag then ContentResult.bare m.element
    else ContentResult.suspended m.element

/-- The slice of `siteData` that `TransitionContentImpl` reads. -/
structure SiteData where
  enableContentAnimation : Bool

/-- What `TransitionContentImpl` produces for an element (elements are
identified by reference, modelled as `Nat` ids): the element as-is, or the
element under the view-transition wrapper (`useViewTransition`). -/
inductive Rendered where
  /-- The element passed through unchanged. -/
  | plain : Nat → Rendered
  /-- The element wrapped by the view transition hook. -/
  | transitioned : Nat → Rendered
  deriving DecidableEq

/-- Function `TransitionContentImpl` from `Content.tsx`: wraps the element in the view
transition exactly when `siteData.themeConfig.enableContentAnimation`. -/
def TransitionContentImpl (site : SiteData) (el : Nat) : Rendered :=
  if site.enableContentAnimation then Rendered.transitioned el
  else Rendered.plain el

/-- The memo comparator passed to `memo(TransitionContentImpl, ...)`:
`(prevProps, nextProps) => prevProps.el === nextProps.el` — referential
equality of the `el` props, modelled as equality of reference ids. -/
def transitionPropsEqual (prevEl nextEl : Nat) : Bool := prevEl == nextEl

/-- The memo cell React keeps for `TransitionContent`: the last `el` prop and
the output `TransitionContentImpl` produced for it. -/
structure MemoState where
  lastEl : Nat
  lastOut : Rendered
  deriving DecidableEq

/-- Component `TransitionContent = memo(TransitionContentImpl, comparator)` rendered
against a new `el` prop: when the comparator deems the props equal the
previous output is reused and the impl is **not** re-invoked (flag `false`);
otherwise the impl re-runs on the new prop (flag `true`). -/
def TransitionContent (site : SiteData) (st : MemoState) (nextEl : Nat) :
    MemoState × Bool :=
  if transitionPropsEqual st.lastEl nextEl then (st, false)
  else ({ lastEl := nextEl, lastOut := TransitionContentImpl site nextEl }, true)

/-- A concrete build environment whose SSR-bundle import rejects. -/
def envLoadFail : RenderEnv :=
  { enableSSG := true
    ssrLoad := Except.error (str "ssr bundle missing")
    routes := [str "/a/", str "/b"]
    additionalRoutes := []
    htmlTemplate := str "T<!--head-->U"
    config := {} }

/-- A render function that throws for every route. -/
def failingRender : RenderFn := fun _ => Except.error (str "boom")

/-- A concrete build environment whose SSR bundle loads but whose render
function throws. -/
def envRouteFail : RenderEnv :=
  { enableSSG := true
    ssrLoad := Except.ok failingRender
    routes := [str "/x/"]
    additionalRoutes := []
    htmlTemplate := str "T<!--head-->U"
    config := {} }

/-- A concrete two-entry route table for the `Content` component. -/
def routesW : List (RouteEntry Nat) := [⟨str "/a", 1⟩, ⟨str "/b", 2⟩]

/-! ## Helper lemmas -/

theorem startsWith_self_append (p t : Str) : startsWith p (p ++ t) = true := by
  induction p with
  | nil => rfl
  | cons c ps ih => simp [startsWith, ih]

theorem splitFirst_self_append (p t : Str) : splitFirst p (p ++ t) = some ([], t) := by
  cases p with
  | nil =>
    cases t with
    | nil => rfl
    | cons c r => simp [splitFirst, startsWith]
  | cons c ps =>
    have h1 : startsWith (c :: ps) ((c :: ps) ++ t) = true := startsWith_self_append _ _
    rw [List.cons_append] at h1 ⊢
    simp only [splitFirst, h1, if_true, List.length_cons, List.drop_succ_cons]
    rw [List.drop_left]

theorem getSubstitution_nil (m b a : Str) : getSubstitution m b a [] = [] := rfl

theorem getSubstitution_dollarFree (m b a s : Str) (h : hasDollar s = false) :
    getSubstitution m b a s = s := by
  induction s with
  | nil => rfl
  | cons c rest ih =>
    have h2 : (c == dollarChar) = false ∧ hasDollar rest = false := by
      have h3 := h
      simp [hasDollar] at h3
      exact ⟨by simp [h3.1], h3.2⟩
    rw [getSubstitution.eq_def]
    simp only [h2.1, Bool.false_eq_true, if_false, ih h2.2]

theorem hasDollar_append (a b : Str) :
    hasDollar (a ++ b) = (hasDollar a || hasDollar b) := by
  induction a with
  | nil => rfl
  | cons c r ih => simp [hasDollar, ih, Bool.or_assoc]

theorem joinOpt_cons (o : Option Str) (t : List (Option Str)) :
    joinOpt (o :: t) = optStr o ++ joinOpt t := by
  cases o <;> rfl

theorem joinOpt_append (a b : List (Option Str)) :
    joinOpt (a ++ b) = joinOpt a ++ joinOpt b := by
  induction a with
  | nil => rfl
  | cons o r ih => cases o <;> simp [joinOpt, ih]

theorem hasDollar_joinOpt_map_some (l : List Str)
    (h : ∀ s ∈ l, hasDollar s = false) :
    hasDollar (joinOpt (l.map some)) = false := by
  induction l with
  | nil => rfl
  | cons s r ih =>
    simp only [List.map_cons, joinOpt, hasDollar_append]
    rw [h s (by simp), ih (fun x hx => h x (by simp [hx]))]
    rfl

theorem replaceStr_of_split (s pat repl b a : Str)
    (hs : splitFirst pat s = some (b, a)) (hd : hasDollar repl = false) :
    replaceStr s pat repl = b ++ repl ++ a := by
  simp [replaceStr, hs, getSubstitution_dollarFree pat b a repl hd]

theorem replaceStr_strip_at_front (pat rest : Str) :
    replaceStr (pat ++ rest) pat [] = rest := by
  simp [replaceStr, splitFirst_self_append, getSubstitution_nil]

theorem replaceF_of_no_occurrence (s pat : Str) (f : Str → Str)
    (h : splitFirst pat s = none) : replaceF s pat f = s := by
  simp [replaceF, h]

theorem renderRoute_none (cfg : Config) (t p : Str) :
    renderRoute cfg t none p
      = ([], (normalizeHtmlFilePath cfg.base p, pageHtml cfg t [] none)) := rfl

theorem renderRoute_fileName (cfg : Config) (t : Str) (r : Option RenderFn) (p : Str) :
    (renderRoute cfg t r p).2.1 = normalizeHtmlFilePath cfg.base p := by
  cases r with
  | none => rfl
  | some rf =>
    cases h : rf p with
    | ok v => simp [renderRoute, h]
    | error m => simp [renderRoute, h]

theorem renderRoute_of_error (cfg : Config) (t : Str) (rf : RenderFn) (p m : Str)
    (h : rf p = Except.error m) :
    renderRoute cfg t (some rf) p
      = ([LogEvent.warnRouteFail p m],
         (normalizeHtmlFilePath cfg.base p, pageHtml cfg t [] none)) := by
  simp [renderRoute, h]

theorem flatten_fst_renderRoute_none (cfg : Config) (t : Str) (l : List Str) :
    ((l.map (renderRoute cfg t none)).map Prod.fst).flatten = [] := by
  induction l with
  | nil => rfl
  | cons p r ih => simp [renderRoute_none, ih]

/-! ## Claims -/

/-- C1: the claim says every marker substitution during page rendering is
supplied as a callback, so a literal `$&` in rendered content always
survives verbatim.  The code only does this for the app-root marker; the
head-marker (and html/body attribute) substitutions pass a plain string, so
a helmet title containing a literal `$&` is expanded by the substitution
engine into the matched marker text: here the rendered page loses the `$&`
and instead contains `<title><!--head--></title>`.  The last conjunct shows
the app-root substitution — the one that does use a callback — keeps `$&`
verbatim as the claim demands. -/
theorem headMarkerReplacementExpandsDollarPatterns :
    containsSub (str "$&")
      (pageHtml {} (str "<html><head><!--head--></head><body><!--app-html--></body></html>")
        [] (some { title := some (str "<title>$&</title>") })) = false ∧
    containsSub (str "<title><!--head--></title>")
      (pageHtml {} (str "<html><head><!--head--></head><body><!--app-html--></body></html>")
        [] (some { title := some (str "<title>$&</title>") })) = true ∧
    containsSub (str "$&")
      (replaceF (str "A<!--app-html-->B") APP_HTML_MARKER (fun _ => str "x$&y")) = true := by
  decide

/-- C2 (counterexample): the claim says base stripping removes only the
leading base prefix and never a later occurrence of the base inside the
path.  For base `/docs` and route path `/x/docs/y/` — which does **not**
start with the base — the code still removes the inner `/docs`, producing
`/x/y/index.html` instead of leaving `/x/docs/y/index.html` untouched. -/
theorem baseStrippingRemovesInnerOccurrence :
    startsWith (normalizeSlash (baseOrSlash (some (str "/docs")))) (str "/x/docs/y/") = false ∧
    normalizeHtmlFilePath (some (str "/docs")) (str "/x/docs/y/") = str "/x/y/index.html" ∧
    normalizeHtmlFilePath (some (str "/docs")) (str "/x/docs/y/") ≠ str "/x/docs/y/index.html" := by
  decide

/-- C2 (amended): a route path ending in `/` maps to `path ++ "index.html"`
and otherwise to `path ++ ".html"`, and the **first occurrence** of the
normalized base in the file path is removed; when the route path starts with
the base — the normal case — this strips exactly the leading prefix.  For
base `/docs` and route `/docs/guide/` the derived file name is
`/guide/index.html` (i.e. `guide/index.html` under the output directory once
joined), and `/docs/guide` derives `/guide.html`. -/
theorem htmlFilePathDerivation (base : Option Str) (path rest : Str)
    (h : path = normalizeSlash (baseOrSlash base) ++ rest) :
    (endsWith (str "/") path = true →
      normalizeHtmlFilePath base path = rest ++ str "index.html") ∧
    (endsWith (str "/") path = false →
      normalizeHtmlFilePath base path = rest ++ str ".html") ∧
    normalizeHtmlFilePath (some (str "/docs")) (str "/docs/guide/") = str "/guide/index.html" ∧
    normalizeHtmlFilePath (some (str "/docs")) (str "/docs/guide") = str "/guide.html" := by
  refine ⟨fun he => ?_, fun he => ?_, by decide, by decide⟩
  · rw [h] at he ⊢
    simp only [normalizeHtmlFilePath, he, if_true, List.append_assoc]
    exact replaceStr_strip_at_front _ _
  · rw [h] at he ⊢
    simp only [normalizeHtmlFilePath, he, Bool.false_eq_true, if_false, List.append_assoc]
    exact replaceStr_strip_at_front _ _

/-- C2 (witness): the amended derivation applied to the spec's own example,
base `/docs` with route `/docs/guide/`. -/
theorem htmlFilePathDerivation_witness :
    normalizeHtmlFilePath (some (str "/docs")) (str "/docs/guide/")
      = str "/guide/" ++ str "index.html" :=
  (htmlFilePathDerivation (some (str "/docs")) (str "/docs/guide/") (str "/guide/")
    (by decide)).1 (by decide)

/-- C3: when SSG is enabled and the SSR-bundle import fails, `renderPages`
does not abort: the load-failure warning is logged exactly once, the write
set is identical to the one a build with SSG disabled would produce (the
render function stays absent), and every static route is still written, with
an empty app-root fragment and an empty helmet context. -/
theorem ssrLoadFailureFallsBackToCSR (env : RenderEnv) (e : Str)
    (h1 : env.enableSSG = true) (h2 : env.ssrLoad = Except.error e) :
    ((renderPages env).1.filter isWarnLoadFail).length = 1 ∧
    (renderPages env).2 = (renderPages { env with enableSSG := false }).2 ∧
    (renderPages env).2 = (staticRoutes env).map
      (fun p => (normalizeHtmlFilePath env.config.base p,
        pageHtml env.config env.htmlTemplate [] none)) := by
  refine ⟨?_, ?_, ?_⟩
  · simp only [renderPages, h1, h2, if_true]
    rw [flatten_fst_renderRoute_none]
    simp [isWarnLoadFail]
  · simp only [renderPages, h1, h2, if_true, Bool.false_eq_true, if_false]
    rfl
  · simp only [renderPages, h1, h2, if_true, List.map_map]
    rfl

/-- C3 (witness): the load-failure fallback evaluated on a concrete
environment with a rejecting SSR import and two static routes. -/
theorem ssrLoadFailureFallsBackToCSR_witness :
    ((renderPages envLoadFail).1.filter isWarnLoadFail).length = 1 :=
  (ssrLoadFailureFallsBackToCSR envLoadFail (str "ssr bundle missing") rfl rfl).1

/-- C4: when the loaded render function throws for a route `x`, `renderPages`
logs the per-route warning, still writes `x`'s file with the CSR fallback
content (empty app-root fragment, empty helmet context), writes one file per
static route regardless, and each route's rendering depends only on the
render function's behavior at that route — so one route's failure cannot
change any other route's output. -/
theorem routeRenderFailureFallsBackToCSR (env : RenderEnv) (r : RenderFn) (x m : Str)
    (h1 : env.enableSSG = true) (h2 : env.ssrLoad = Except.ok r)
    (h3 : x ∈ staticRoutes env) (h4 : r x = Except.error m) :
    LogEvent.warnRouteFail x m ∈ (renderPages env).1 ∧
    (normalizeHtmlFilePath env.config.base x,
      pageHtml env.config env.htmlTemplate [] none) ∈ (renderPages env).2 ∧
    (renderPages env).2.length = (staticRoutes env).length ∧
    (∀ r2 : RenderFn, ∀ y : Str, r2 y = r y →
      renderRoute env.config env.htmlTemplate (some r2) y
        = renderRoute env.config env.htmlTemplate (some r) y) := by
  refine ⟨?_, ?_, ?_, ?_⟩
  · simp only [renderPages, h1, h2, if_true, List.cons_append, List.nil_append,
      List.mem_cons, List.mem_append, List.mem_flatten, List.mem_map]
    refine Or.inr (Or.inl ?_)
    refine ⟨[LogEvent.warnRouteFail x m], ⟨renderRoute env.config env.htmlTemplate (some r) x, ⟨x, h3, rfl⟩, ?_⟩, by simp⟩
    rw [renderRoute_of_error env.config env.htmlTemplate r x m h4]
  · simp only [renderPages, h1, h2, if_true]
    have h5 := List.mem_map_of_mem (renderRoute env.config env.htmlTemplate (some r)) h3
    rw [renderRoute_of_error env.config env.htmlTemplate r x m h4] at h5
    exact List.mem_map_of_mem Prod.snd h5
  · simp [renderPages, h1, h2]
  · intro r2 y hy
    simp [renderRoute, hy]

/-- C4 (witness): the per-route fallback evaluated on a concrete environment
whose render function throws for the only route. -/
theorem routeRenderFailureFallsBackToCSR_witness :
    LogEvent.warnRouteFail (str "/x/") (str "boom") ∈ (renderPages envRouteFail).1 :=
  (routeRenderFailureFallsBackToCSR envRouteFail failingRender (str "/x/") (str "boom")
    rfl rfl (by decide) rfl).1

/-- C5: for a route whose helmet yields title `<title>T</title>` and a
configured `head = ["<meta a>"]`, the head marker in the template is
replaced by a concatenation with `<meta a>` first, then `<title>T</title>`,
then the remaining helmet tag groups (meta, link, style, script), and the
theme-detection bootstrap script last.  The dollar-freeness hypotheses pin
down the inputs on which the string-form substitution inserts the
concatenation verbatim. -/
theorem headSubstitutionOrder (cfg : Config) (template pre post appHtml : Str)
    (hm : HelmetState)
    (hhead : cfg.head = [str "<meta a>"])
    (htitle : hm.title = some (str "<title>T</title>"))
    (hhtml : hm.htmlAttributes = none) (hbody : hm.bodyAttributes = none)
    (happ : splitFirst APP_HTML_MARKER template = none)
    (hsplit : splitFirst HEAD_MARKER template = some (pre, post))
    (hmeta : hasDollar (optStr hm.meta) = false)
    (hlink : hasDollar (optStr hm.link) = false)
    (hstyle : hasDollar (optStr hm.style) = false)
    (hscript : hasDollar (optStr hm.script) = false) :
    pageHtml cfg template appHtml (some hm)
      = pre ++ str "<meta a>" ++ str "<title>T</title>"
          ++ optStr hm.meta ++ optStr hm.link ++ optStr hm.style ++ optStr hm.script
          ++ CHECK_DARK_LIGHT_SCRIPT ++ post := by
  have hrepl :
      joinOpt ((cfg.head.map some) ++
        [hm.title, hm.meta, hm.link, hm.style, hm.script, some CHECK_DARK_LIGHT_SCRIPT])
        = str "<meta a>" ++ (str "<title>T</title>"
            ++ (optStr hm.meta ++ (optStr hm.link ++ (optStr hm.style
            ++ (optStr hm.script ++ CHECK_DARK_LIGHT_SCRIPT))))) := by
    rw [hhead, htitle]
    simp [joinOpt_cons, joinOpt]
  have hfree : hasDollar (str "<meta a>" ++ (str "<title>T</title>"
      ++ (optStr hm.meta ++ (optStr hm.link ++ (optStr hm.style
      ++ (optStr hm.script ++ CHECK_DARK_LIGHT_SCRIPT)))))) = false := by
    simp only [hasDollar_append, hmeta, hlink, hstyle, hscript, Bool.or_false, Bool.false_or]
    decide
  simp only [pageHtml, Option.some_bind, hhtml, hbody]
  rw [replaceF_of_no_occurrence template APP_HTML_MARKER _ happ, hrepl,
    replaceStr_of_split template HEAD_MARKER _ pre post hsplit hfree]
  simp [List.append_assoc]

/-- C5 (witness): the ordering theorem evaluated on a concrete template
`A<!--head-->B` with the claim's helmet title and configured head entry. -/
theorem headSubstitutionOrder_witness :
    pageHtml { head := [str "<meta a>"] } (str "A<!--head-->B") []
      (some { title := some (str "<title>T</title>") })
      = str "A" ++ str "<meta a>" ++ str "<title>T</title>"
          ++ optStr none ++ optStr none ++ optStr none ++ optStr none
          ++ CHECK_DARK_LIGHT_SCRIPT ++ str "B" :=
  headSubstitutionOrder { head := [str "<meta a>"] } (str "A<!--head-->B")
    (str "A") (str "B") [] { title := some (str "<title>T</title>") }
    rfl rfl rfl rfl (by decide) (by decide) rfl rfl rfl rfl

/-- C6: the written file set of `renderPages` is, in order, exactly one file
per route without a dynamic parameter (`':'` in the path), at the file path
derived by the trailing-slash rule (`normalizeHtmlFilePath`); routes with a
dynamic parameter are filtered out and produce no output file.  This holds
whatever the SSG flag, the SSR-bundle load outcome and the render results. -/
theorem staticRouteOutputs (env : RenderEnv) :
    (renderPages env).2.map Prod.fst
      = ((env.routes ++ env.additionalRoutes).filter
          (fun p => !(containsSub (str ":") p))).map
          (normalizeHtmlFilePath env.config.base) ∧
    (renderPages env).2.length
      = ((env.routes ++ env.additionalRoutes).filter
          (fun p => !(containsSub (str ":") p))).length := by
  constructor
  · simp only [renderPages, List.map_map, staticRoutes]
    refine List.map_congr_left (fun p _ => ?_)
    exact renderRoute_fileName env.config env.htmlTemplate _ p
  · simp [renderPages, staticRoutes]

/-- C7: `bundle` wraps its body in try/finally, so the `writeSearchIndex`
call is the final step on **every** exit path — after a successful build and
copy, and equally when the client build, the SSR build or the copy throws
(in which case the error is still propagated in the result). -/
theorem searchIndexWrittenOnEveryExit (env : BundleEnv) :
    (bundle env).1.getLast? = some BuildStep.writeSearchIndexStep ∧
    BuildStep.writeSearchIndexStep ∈ (bundle env).1 := by
  constructor
  · simp [bundle]
  · simp [bundle]

/-- C8: the `Content` component never fails on an unmatched pathname — when
the normalized pathname matches no route-table entry (table order, first
match) it returns the empty placeholder, and when some entry matches it
renders the first matching route's element (bare or inside the
suspense/transition wrapper, depending on the runtime mode). -/
theorem contentMatchSemantics {α : Type} (pathMatches : Str → Str → Bool)
    (normalize : Str → Str) (routes : List (RouteEntry α))
    (reactGte18 ssrFlag : Bool) (pathname : Str) :
    (routes.find? (fun r => pathMatches r.routePath (normalize pathname)) = none →
      Content pathMatches normalize routes reactGte18 ssrFlag pathname
        = ContentResult.placeholder) ∧
    (∀ r0 : RouteEntry α,
      routes.find? (fun r => pathMatches r.routePath (normalize pathname)) = some r0 →
      renderedElement (Content pathMatches normalize routes reactGte18 ssrFlag pathname)
        = some r0.element) := by
  constructor
  · intro h
    simp [Content, matchRoutes, h]
  · intro r0 h
    simp only [Content, matchRoutes, h]
    cases hb : (!reactGte18 && ssrFlag) <;> simp [renderedElement]

/-- C8 (witness): the match semantics evaluated on a concrete two-entry
route table, matching the second entry. -/
theorem contentMatchSemantics_witness :
    renderedElement (Content (fun a b => a == b) id routesW true false (str "/b"))
      = some 2 :=
  (contentMatchSemantics (fun a b => a == b) id routesW true false (str "/b")).2
    ⟨str "/b", 2⟩ (by decide)

/-- C9: `TransitionContent`'s memo comparator is referential equality of the
`el` prop, so a render with an unchanged element reference reuses the cached
output without re-invoking the transition wrapper, and a render with a
changed reference re-invokes it — the re-render flag is `true` exactly when
the reference changed. -/
theorem transitionContentMemoization (site : SiteData) (st : MemoState) :
    TransitionContent site st st.lastEl = (st, false) ∧
    (∀ nextEl : Nat,
      ((TransitionContent site st nextEl).2 = true ↔ ¬ (st.lastEl = nextEl))) := by
  constructor
  · simp [TransitionContent, transitionPropsEqual]
  · intro n
    by_cases h : st.lastEl = n <;>
      simp [TransitionContent, transitionPropsEqual, h]

/-- C10: on a CSR-fallback route the helmet context carries no helmet data,
and the head substitution still produces well-formed output: every
`undefined` tag group contributes the empty string to the `join('')` (second
conjunct), so the head marker is replaced by exactly the configured head
entries followed by the theme-detection script (first conjunct, for inputs
the string-form substitution inserts verbatim), the html/body attribute
injections are skipped, and the script itself never contains the literal
text `undefined` (third conjunct). -/
theorem csrHeadSubstitution (cfg : Config) (template pre post : Str)
    (hheads : ∀ s ∈ cfg.head, hasDollar s = false)
    (hsplit : splitFirst HEAD_MARKER
      (replaceF template APP_HTML_MARKER (fun _ => [])) = some (pre, post)) :
    pageHtml cfg template [] none
      = pre ++ joinOpt (cfg.head.map some) ++ CHECK_DARK_LIGHT_SCRIPT ++ post ∧
    joinOpt ((cfg.head.map some) ++
        [none, none, none, none, none, some CHECK_DARK_LIGHT_SCRIPT])
      = joinOpt (cfg.head.map some) ++ CHECK_DARK_LIGHT_SCRIPT ∧
    containsSub (str "undefined") CHECK_DARK_LIGHT_SCRIPT = false := by
  have hjoin : joinOpt ((cfg.head.map some) ++
      [none, none, none, none, none, some CHECK_DARK_LIGHT_SCRIPT])
      = joinOpt (cfg.head.map some) ++ CHECK_DARK_LIGHT_SCRIPT := by
    rw [joinOpt_append]
    simp [joinOpt]
  refine ⟨?_, hjoin, by decide⟩
  have hfree : hasDollar (joinOpt (cfg.head.map some) ++ CHECK_DARK_LIGHT_SCRIPT) = false := by
    rw [hasDollar_append, hasDollar_joinOpt_map_some cfg.head hheads]
    decide
  simp only [pageHtml, Option.none_bind, hjoin]
  rw [replaceStr_of_split _ HEAD_MARKER _ pre post hsplit hfree]
  simp [List.append_assoc]

/-- C10 (witness): the CSR head substitution evaluated on a concrete
template `C<!--head-->D` with one configured head entry. -/
theorem csrHeadSubstitution_witness :
    pageHtml { head := [str "<meta b>"] } (str "C<!--head-->D") [] none
      = str "C" ++ joinOpt ([str "<meta b>"].map some)
          ++ CHECK_DARK_LIGHT_SCRIPT ++ str "D" :=
  (csrHeadSubstitution { head := [str "<meta b>"] } (str "C<!--head-->D")
    (str "C") (str "D") (by decide) (by decide)).1

end Rspress
